import Mathlib

/-!
# Typed REST client for `InstanceDeployment`

A shallow embedding of
`pkg/client/clientset/typed/node/v1alpha1/instancedeployment.go`.

The Go file builds requests on an injected `rest.Interface` with the fluent
builder of `k8s.io/client-go/rest` and hands them over with `Do()` or
`Watch()`.  Here a request is the verb it was created with together with the
builder calls made on it, in the order they were made; nothing about how the
library interprets those calls is assumed.  The transport is a parameter: an
arbitrary answer for every request, plus the list of the requests it has
executed so far.

Pointers are `Option`s (`none` is `nil`).  Reading a field through a nil
pointer is a run-time panic, which is an explicit outcome.
-/

namespace v1alpha1

/-! ## Payload types (declared outside this file in the Go sources) -/

/-- Modelled from the spec: the `InstanceDeployment` type of package
`pkg/apis/node/v1alpha1`, whose declaration is not part of the sources at hand.
The client reads only `Name` (promoted from the embedded `ObjectMeta`); the
other fields stand for the rest of the object and are never looked at. -/
structure InstanceDeployment where
  Name : String := ""
  Namespace : String := ""
  Spec : String := ""
  Status : String := ""
  deriving DecidableEq, Repr

/-- Modelled from the spec: the `InstanceDeploymentList` type of package
`pkg/apis/node/v1alpha1`, a list of items with list metadata. -/
structure InstanceDeploymentList where
  ResourceVersion : String := ""
  Items : List InstanceDeployment := []
  deriving DecidableEq, Repr

/-- Modelled from the spec: the `Scale` type of package
`pkg/apis/node/v1alpha1`, the replica-count facet of a resource.  It carries
its own `Name` through its embedded `ObjectMeta`. -/
structure Scale where
  Name : String := ""
  Namespace : String := ""
  SpecReplicas : Int := 0
  StatusReplicas : Int := 0
  deriving DecidableEq, Repr

/-- The `v1.GetOptions` of apimachinery. -/
structure GetOptions where
  ResourceVersion : String := ""
  IncludeUninitialized : Bool := false
  deriving DecidableEq, Repr

/-- The `v1.ListOptions` of apimachinery. -/
structure ListOptions where
  LabelSelector : String := ""
  FieldSelector : String := ""
  IncludeUninitialized : Bool := false
  Watch : Bool := false
  ResourceVersion : String := ""
  TimeoutSeconds : Option Int := none
  deriving DecidableEq, Repr

/-- The `v1.DeleteOptions` of apimachinery. -/
structure DeleteOptions where
  GracePeriodSeconds : Option Int := none
  PreconditionsUID : Option String := none
  OrphanDependents : Option Bool := none
  PropagationPolicy : Option String := none
  deriving DecidableEq, Repr

/-- The `types.PatchType` of apimachinery, a string type. -/
abbrev PatchType := String

/-- A Go `[]byte`. -/
abbrev ByteSlice := List (Fin 256)

/-- A Go `[]string`, also the type of a variadic `...string` parameter. -/
abbrev StringSlice := List String

/-- A Go `error` value; `Option Error` is an `error` that may be nil. -/
structure Error where
  msg : String
  deriving DecidableEq, Repr

/-- The stream handle `watch.Interface` returned by a watch. -/
structure WatchInterface where
  handle : Nat
  deriving DecidableEq, Repr

/-! ## The request builder of `k8s.io/client-go/rest` -/

/-- The HTTP verb a request is created with.  `PATCH` carries the patch type
given to `rest.Interface.Patch`. -/
inductive Verb where
  | GET
  | POST
  | PUT
  | DELETE
  | PATCH (pt : PatchType)
  deriving DecidableEq, Repr

/-- The parameter codec handed to `VersionedParams`; the file only ever uses
`scheme.ParameterCodec`. -/
inductive ParameterCodec where
  | schemeParameterCodec
  deriving DecidableEq, Repr

/-- The object handed to `VersionedParams`. -/
inductive Params where
  | getOptions (o : GetOptions)
  | listOptions (o : ListOptions)
  deriving DecidableEq, Repr

/-- The value handed to `Body(obj interface{})`: a pointer (possibly nil) to
one of the objects, or a byte slice. -/
inductive Body where
  | instanceDeployment (p : Option InstanceDeployment)
  | scale (p : Option Scale)
  | deleteOptions (p : Option DeleteOptions)
  | bytes (data : ByteSlice)
  deriving DecidableEq, Repr

/-- One call on the request builder, with its arguments. -/
inductive Step where
  | Namespace (ns : String)
  | Resource (resource : String)
  | Name (resourceName : String)
  | SubResource (subresources : StringSlice)
  | VersionedParams (obj : Params) (codec : ParameterCodec)
  | Body (obj : Body)
  deriving DecidableEq, Repr

/-- A `rest.Request` under construction: the verb it was created with and the
builder calls made on it so far, oldest first. -/
structure Request where
  verb : Verb
  steps : List Step := []
  deriving DecidableEq, Repr

namespace Request

/-- Builder call `Namespace(ns)`. -/
def Namespace (r : Request) (ns : String) : Request :=
  { r with steps := r.steps ++ [Step.Namespace ns] }

/-- Builder call `Resource(resource)`. -/
def Resource (r : Request) (resource : String) : Request :=
  { r with steps := r.steps ++ [Step.Resource resource] }

/-- Builder call `Name(resourceName)`. -/
def Name (r : Request) (resourceName : String) : Request :=
  { r with steps := r.steps ++ [Step.Name resourceName] }

/-- Builder call `SubResource(subresources...)`. -/
def SubResource (r : Request) (subresources : StringSlice) : Request :=
  { r with steps := r.steps ++ [Step.SubResource subresources] }

/-- Builder call `VersionedParams(obj, codec)`. -/
def VersionedParams (r : Request) (obj : Params) (codec : ParameterCodec) : Request :=
  { r with steps := r.steps ++ [Step.VersionedParams obj codec] }

/-- Builder call `Body(obj)`. -/
def Body (r : Request) (obj : v1alpha1.Body) : Request :=
  { r with steps := r.steps ++ [Step.Body obj] }

/-! ### Reading a request back -/

/-- Every namespace set on the request. -/
def namespaces (r : Request) : List String :=
  r.steps.filterMap fun s => match s with
    | Step.Namespace ns => some ns
    | _ => none

/-- Every resource set on the request. -/
def resources (r : Request) : List String :=
  r.steps.filterMap fun s => match s with
    | Step.Resource x => some x
    | _ => none

/-- Every object name set on the request. -/
def names (r : Request) : List String :=
  r.steps.filterMap fun s => match s with
    | Step.Name x => some x
    | _ => none

/-- The sub-resource path segments of the request, in order. -/
def subresourcePath (r : Request) : List String :=
  r.steps.flatMap fun s => match s with
    | Step.SubResource xs => xs
    | _ => []

/-- Every versioned query-parameter object set on the request. -/
def params (r : Request) : List Params :=
  r.steps.filterMap fun s => match s with
    | Step.VersionedParams o _ => some o
    | _ => none

/-- Every body set on the request. -/
def bodies (r : Request) : List v1alpha1.Body :=
  r.steps.filterMap fun s => match s with
    | Step.Body b => some b
    | _ => none

/-- The request with its sub-resource calls left out. -/
def withoutSubResource (r : Request) : Request :=
  { r with steps := r.steps.filter fun s => match s with
      | Step.SubResource _ => false
      | _ => true }

/-- The request with its body calls left out. -/
def withoutBody (r : Request) : Request :=
  { r with steps := r.steps.filter fun s => match s with
      | Step.Body _ => false
      | _ => true }

end Request

/-! ## The injected transport -/

/-- The kinds of object a response is decoded into. -/
inductive Kind where
  | instanceDeployment
  | instanceDeploymentList
  | scale
  deriving DecidableEq, Repr

/-- The Go type behind a kind. -/
@[reducible] def Kind.type : Kind → Type
  | Kind.instanceDeployment => InstanceDeployment
  | Kind.instanceDeploymentList => InstanceDeploymentList
  | Kind.scale => Scale

/-- A `rest.Result`, the answer to `Do()`.  `Error` is what `Error()`
returns.  `Into k obj` is what `Into(p)` does when `p` points to `obj`: it
gives the object the pointer refers to afterwards and the error returned. -/
structure Result where
  Error : Option Error
  Into : (k : Kind) → k.type → k.type × Option v1alpha1.Error

/-- The injected `rest.Interface`: how it answers an executed request
(`Do` and `Watch`), and the requests it has executed so far, oldest
first.  A request counts as executed once `Do()` or `Watch()` has been called
on it; whether the library then performs a round trip or refuses the request
(the builder of client-go refuses an empty object name, for one) is part of
the answer. -/
structure Interface where
  Do : Request → Result
  Watch : Request → Option WatchInterface × Option Error
  sent : List Request := []

namespace Interface

/-- Method `Get()`: a new request with verb GET. -/
def Get (_c : Interface) : Request := { verb := Verb.GET }

/-- Method `Post()`: a new request with verb POST. -/
def Post (_c : Interface) : Request := { verb := Verb.POST }

/-- Method `Put()`: a new request with verb PUT. -/
def Put (_c : Interface) : Request := { verb := Verb.PUT }

/-- Method `Delete()`: a new request with verb DELETE. -/
def Delete (_c : Interface) : Request := { verb := Verb.DELETE }

/-- Method `Patch(pt)`: a new request with verb PATCH of type `pt`. -/
def Patch (_c : Interface) (pt : PatchType) : Request := { verb := Verb.PATCH pt }

/-- Executing a request with `Do()`: the transport records it and answers. -/
def exec (c : Interface) (r : Request) : Interface × Result :=
  ({ c with sent := c.sent ++ [r] }, c.Do r)

/-- Executing a request with `Watch()`: the transport records it and
answers with a stream and an error. -/
def execWatch (c : Interface) (r : Request) :
    Interface × Option WatchInterface × Option Error :=
  ({ c with sent := c.sent ++ [r] }, c.Watch r)

end Interface

/-! ## The client -/

/-- A run-time panic. -/
inductive Panic where
  | nilPointerDereference
  deriving DecidableEq, Repr

/-- How a call ends: it returns its result and its error, or it panics. -/
inductive Outcome (α : Type) where
  | returned (result : α) (err : Option Error)
  | panicked (p : Panic)

/-- A finished call: the transport afterwards and how the call ended. -/
structure Run (α : Type) where
  client : Interface
  outcome : Outcome α

/-- The struct `instanceDeployments`, which implements
`InstanceDeploymentInterface`. -/
structure instanceDeployments where
  client : Interface

namespace instanceDeployments

/-- Method `Get` (source lines 48-57). -/
def Get (c : instanceDeployments) (name : String) (options : GetOptions) :
    Run (Option InstanceDeployment) :=
  let result : InstanceDeployment := {}
  let req := ((c.client.Get.Resource "instancedeployments").Name name).VersionedParams
    (Params.getOptions options) ParameterCodec.schemeParameterCodec
  let done := c.client.exec req
  let into := done.2.Into Kind.instanceDeployment result
  { client := done.1, outcome := Outcome.returned (some into.1) into.2 }

/-- Method `List` (source lines 60-68). -/
def List (c : instanceDeployments) (opts : ListOptions) :
    Run (Option InstanceDeploymentList) :=
  let result : InstanceDeploymentList := {}
  let req := (c.client.Get.Resource "instancedeployments").VersionedParams
    (Params.listOptions opts) ParameterCodec.schemeParameterCodec
  let done := c.client.exec req
  let into := done.2.Into Kind.instanceDeploymentList result
  { client := done.1, outcome := Outcome.returned (some into.1) into.2 }

/-- Method `Watch` (source lines 71-77).  `opts` is passed by value, so the
assignment changes the callee's copy. -/
def Watch (c : instanceDeployments) (opts : ListOptions) :
    Run (Option WatchInterface) :=
  let opts := { opts with Watch := true }
  let req := (c.client.Get.Resource "instancedeployments").VersionedParams
    (Params.listOptions opts) ParameterCodec.schemeParameterCodec
  let done := c.client.execWatch req
  { client := done.1, outcome := Outcome.returned done.2.1 done.2.2 }

/-- Method `Create` (source lines 80-88). -/
def Create (c : instanceDeployments) (instanceDeployment : Option InstanceDeployment) :
    Run (Option InstanceDeployment) :=
  let result : InstanceDeployment := {}
  let req := (c.client.Post.Resource "instancedeployments").Body
    (Body.instanceDeployment instanceDeployment)
  let done := c.client.exec req
  let into := done.2.Into Kind.instanceDeployment result
  { client := done.1, outcome := Outcome.returned (some into.1) into.2 }

/-- Method `Update` (source lines 91-100).  `instanceDeployment.Name` reads
through the pointer, so a nil argument panics.  The builder calls written
before it only construct the request: when the panic happens nothing has been
executed. -/
def Update (c : instanceDeployments) (instanceDeployment : Option InstanceDeployment) :
    Run (Option InstanceDeployment) :=
  let result : InstanceDeployment := {}
  match instanceDeployment with
  | none => { client := c.client, outcome := Outcome.panicked Panic.nilPointerDereference }
  | some d =>
    let req := ((c.client.Put.Resource "instancedeployments").Name d.Name).Body
      (Body.instanceDeployment instanceDeployment)
    let done := c.client.exec req
    let into := done.2.Into Kind.instanceDeployment result
    { client := done.1, outcome := Outcome.returned (some into.1) into.2 }

/-- Method `UpdateStatus` (source lines 105-115).  It reads
`instanceDeployment.Name` like `Update`. -/
def UpdateStatus (c : instanceDeployments) (instanceDeployment : Option InstanceDeployment) :
    Run (Option InstanceDeployment) :=
  let result : InstanceDeployment := {}
  match instanceDeployment with
  | none => { client := c.client, outcome := Outcome.panicked Panic.nilPointerDereference }
  | some d =>
    let req := ((((c.client.Put.Resource "instancedeployments").Name d.Name).SubResource
      ["status"]).Body (Body.instanceDeployment instanceDeployment))
    let done := c.client.exec req
    let into := done.2.Into Kind.instanceDeployment result
    { client := done.1, outcome := Outcome.returned (some into.1) into.2 }

/-- Method `Delete` (source lines 118-125).  It returns only an error. -/
def Delete (c : instanceDeployments) (name : String) (options : Option DeleteOptions) :
    Run Unit :=
  let req := ((c.client.Delete.Resource "instancedeployments").Name name).Body
    (Body.deleteOptions options)
  let done := c.client.exec req
  { client := done.1, outcome := Outcome.returned () done.2.Error }

/-- Method `DeleteCollection` (source lines 128-135). -/
def DeleteCollection (c : instanceDeployments) (options : Option DeleteOptions)
    (listOptions : ListOptions) : Run Unit :=
  let req := ((c.client.Delete.Resource "instancedeployments").VersionedParams
    (Params.listOptions listOptions) ParameterCodec.schemeParameterCodec).Body
    (Body.deleteOptions options)
  let done := c.client.exec req
  { client := done.1, outcome := Outcome.returned () done.2.Error }

/-- Method `Patch` (source lines 138-148). -/
def Patch (c : instanceDeployments) (name : String) (pt : PatchType)
    (data : ByteSlice) (subresources : StringSlice) :
    Run (Option InstanceDeployment) :=
  let result : InstanceDeployment := {}
  let req := ((((c.client.Patch pt).Resource "instancedeployments").SubResource
    subresources).Name name).Body (Body.bytes data)
  let done := c.client.exec req
  let into := done.2.Into Kind.instanceDeployment result
  { client := done.1, outcome := Outcome.returned (some into.1) into.2 }

/-- Method `GetScale` (source lines 151-161). -/
def GetScale (c : instanceDeployments) (instanceDeploymentName : String)
    (options : GetOptions) : Run (Option Scale) :=
  let result : Scale := {}
  let req := ((((c.client.Get.Resource "instancedeployments").Name
    instanceDeploymentName).SubResource ["scale"]).VersionedParams
    (Params.getOptions options) ParameterCodec.schemeParameterCodec)
  let done := c.client.exec req
  let into := done.2.Into Kind.scale result
  { client := done.1, outcome := Outcome.returned (some into.1) into.2 }

/-- Method `UpdateScale` (source lines 164-174). -/
def UpdateScale (c : instanceDeployments) (instanceDeploymentName : String)
    (scale : Option Scale) : Run (Option Scale) :=
  let result : Scale := {}
  let req := ((((c.client.Put.Resource "instancedeployments").Name
    instanceDeploymentName).SubResource ["scale"]).Body (Body.scale scale))
  let done := c.client.exec req
  let into := done.2.Into Kind.scale result
  { client := done.1, outcome := Outcome.returned (some into.1) into.2 }

end instanceDeployments

end v1alpha1

namespace v1alpha1

/-! ## Vocabulary for the statements -/

/-- A transport that answers every request without error, decodes nothing,
and has executed nothing yet. -/
def quietTransport : Interface :=
  { Do := fun _ => { Error := none, Into := fun _ obj => (obj, none) }
    Watch := fun _ => (some { handle := 0 }, none) }

/-- A transport that fails every request: `Do` and `Watch` report an error
and `Into` returns it without decoding anything. -/
def failingTransport : Interface :=
  { Do := fun _ =>
      { Error := some { msg := "connection refused" }
        Into := fun _ obj => (obj, some { msg := "connection refused" }) }
    Watch := fun _ => (none, some { msg := "connection refused" }) }

/-- A transport that answers as the request builder of client-go does for an
empty object name: a request on which `Name("")` was called is refused with
"resource name may not be empty" and nothing is decoded; every other request
is answered without error, also with nothing decoded. -/
def emptyNameRefusingTransport : Interface :=
  { Do := fun r =>
      if "" ∈ r.names then
        { Error := some { msg := "resource name may not be empty" }
          Into := fun _ obj => (obj, some { msg := "resource name may not be empty" }) }
      else
        { Error := none, Into := fun _ obj => (obj, none) }
    Watch := fun _ => (some { handle := 0 }, none) }

/-- The call executed exactly one request on the transport it started from:
one with verb `v`, on the resource "instancedeployments" only, and with no
namespace set. -/
def IssuesOne {α : Type} (before : Interface) (run : Run α) (v : Verb) : Prop :=
  ∃ r : Request, run.client.sent = before.sent ++ [r] ∧ r.verb = v ∧
    r.resources = ["instancedeployments"] ∧ r.namespaces = []

/-- The call returned (it did not panic), it executed exactly one request,
and the error it returned is the one `errOf` reads off the transport for that
request. -/
def ReturnsErrorOf {α : Type} (before : Interface) (run : Run α)
    (errOf : Request → Option Error) : Prop :=
  ∃ (r : Request) (res : α), run.client.sent = before.sent ++ [r] ∧
    run.outcome = Outcome.returned res (errOf r)

/-- What `Do().Into(p)` returns for request `r` when `p` points to a fresh
zero value of kind `k`. -/
def Interface.intoError (c : Interface) (k : Kind) (zero : k.type) (r : Request) :
    Option Error :=
  ((c.Do r).Into k zero).2

/-- What `Do().Error()` returns for request `r`. -/
def Interface.doError (c : Interface) (r : Request) : Option Error :=
  (c.Do r).Error

/-- The error `Watch()` returns for request `r`. -/
def Interface.watchError (c : Interface) (r : Request) : Option Error :=
  (c.Watch r).2

/-! ## C1: one request per call, verb and resource -/

/-- C1, as stated, fails: given a nil `InstanceDeployment`, `Update` and
`UpdateStatus` panic on reading its name and execute no request at all, so it
is not true that every operation issues exactly one request for every
input. -/
theorem C1_nil_update_issues_no_request :
    (instanceDeployments.Update { client := quietTransport } none).client.sent = [] ∧
    (instanceDeployments.UpdateStatus { client := quietTransport } none).client.sent = [] ∧
    ¬ IssuesOne quietTransport
        (instanceDeployments.Update { client := quietTransport } none) Verb.PUT ∧
    ¬ IssuesOne quietTransport
        (instanceDeployments.UpdateStatus { client := quietTransport } none) Verb.PUT := by
  refine ⟨rfl, rfl, ?_, ?_⟩ <;>
  · rintro ⟨r, h, -⟩
    simp [instanceDeployments.Update, instanceDeployments.UpdateStatus, quietTransport] at h

/-- C1, amended: for every transport and every input other than a nil
`InstanceDeployment` handed to `Update` or `UpdateStatus`, each of the eleven
operations executes exactly one request, on the resource
"instancedeployments", with no namespace set, and with the verb: GET for
`Get`, `List`, `Watch` and `GetScale`; POST for `Create`; PUT for `Update`,
`UpdateStatus` and `UpdateScale`; DELETE for `Delete` and `DeleteCollection`;
PATCH with the caller's patch type for `Patch`. -/
theorem C1_one_request_verb_resource (c : instanceDeployments) :
    (∀ name options, IssuesOne c.client (c.Get name options) Verb.GET) ∧
    (∀ opts, IssuesOne c.client (c.List opts) Verb.GET) ∧
    (∀ opts, IssuesOne c.client (c.Watch opts) Verb.GET) ∧
    (∀ name options, IssuesOne c.client (c.GetScale name options) Verb.GET) ∧
    (∀ d, IssuesOne c.client (c.Create d) Verb.POST) ∧
    (∀ d : InstanceDeployment, IssuesOne c.client (c.Update (some d)) Verb.PUT) ∧
    (∀ d : InstanceDeployment, IssuesOne c.client (c.UpdateStatus (some d)) Verb.PUT) ∧
    (∀ name scale, IssuesOne c.client (c.UpdateScale name scale) Verb.PUT) ∧
    (∀ name options, IssuesOne c.client (c.Delete name options) Verb.DELETE) ∧
    (∀ options listOptions,
      IssuesOne c.client (c.DeleteCollection options listOptions) Verb.DELETE) ∧
    (∀ name pt data subresources,
      IssuesOne c.client (c.Patch name pt data subresources) (Verb.PATCH pt)) := by
  refine ⟨?_, ?_, ?_, ?_, ?_, ?_, ?_, ?_, ?_, ?_, ?_⟩ <;> intros <;>
    exact ⟨_, rfl, rfl, rfl, rfl⟩

/-! ## C2: the error is the transport's -/

/-- C2: every operation returns exactly the error the transport gave for the
one request the operation executed: the error of `Do().Into` for `Get`,
`List`, `Create`, `Update`, `UpdateStatus`, `Patch`, `GetScale` and
`UpdateScale`, the error of `Do().Error` for `Delete` and `DeleteCollection`,
and the error of `Watch()` for `Watch`.  In particular the returned error is
nil exactly when the transport reported none.  `Update` and `UpdateStatus`
are taken at a non-nil argument; at nil they panic and so return no error at
all. -/
theorem C2_error_is_transport_error (c : instanceDeployments) :
    (∀ name options, ReturnsErrorOf c.client (c.Get name options)
      (c.client.intoError Kind.instanceDeployment {})) ∧
    (∀ opts, ReturnsErrorOf c.client (c.List opts)
      (c.client.intoError Kind.instanceDeploymentList {})) ∧
    (∀ opts, ReturnsErrorOf c.client (c.Watch opts) c.client.watchError) ∧
    (∀ d, ReturnsErrorOf c.client (c.Create d)
      (c.client.intoError Kind.instanceDeployment {})) ∧
    (∀ d : InstanceDeployment, ReturnsErrorOf c.client (c.Update (some d))
      (c.client.intoError Kind.instanceDeployment {})) ∧
    (∀ d : InstanceDeployment, ReturnsErrorOf c.client (c.UpdateStatus (some d))
      (c.client.intoError Kind.instanceDeployment {})) ∧
    (∀ name options, ReturnsErrorOf c.client (c.Delete name options) c.client.doError) ∧
    (∀ options listOptions,
      ReturnsErrorOf c.client (c.DeleteCollection options listOptions) c.client.doError) ∧
    (∀ name pt data subresources, ReturnsErrorOf c.client (c.Patch name pt data subresources)
      (c.client.intoError Kind.instanceDeployment {})) ∧
    (∀ name options, ReturnsErrorOf c.client (c.GetScale name options)
      (c.client.intoError Kind.scale {})) ∧
    (∀ name scale, ReturnsErrorOf c.client (c.UpdateScale name scale)
      (c.client.intoError Kind.scale {})) ∧
    (c.Update none).outcome = Outcome.panicked Panic.nilPointerDereference ∧
    (c.UpdateStatus none).outcome = Outcome.panicked Panic.nilPointerDereference := by
  refine ⟨?_, ?_, ?_, ?_, ?_, ?_, ?_, ?_, ?_, ?_, ?_, rfl, rfl⟩ <;> intros <;>
    exact ⟨_, _, rfl, rfl⟩

/-! ## C3: the query parameters of `Watch` and `List` -/

/-- The call executed exactly one request on the transport it started from,
and that request satisfies `P`. -/
def Sends {α : Type} (before : Interface) (run : Run α) (P : Request → Prop) : Prop :=
  ∃ r : Request, run.client.sent = before.sent ++ [r] ∧ P r

/-- The two calls, each started from `before`, executed exactly one request
each, and the two requests are related by `P`. -/
def SendBoth {α β : Type} (before : Interface) (run₁ : Run α) (run₂ : Run β)
    (P : Request → Request → Prop) : Prop :=
  ∃ r₁ r₂ : Request, run₁.client.sent = before.sent ++ [r₁] ∧
    run₂.client.sent = before.sent ++ [r₂] ∧ P r₁ r₂

/-- C3: `Watch` sends, as its only query parameters, a `ListOptions` whose
`Watch` field is true and whose other fields are those of `opts`, whatever
`opts.Watch` was: the calls with `opts.Watch` false and true are the same
call.  `List` sends `opts` as it got it, so the `Watch` field it sends is the
caller's. -/
theorem C3_watch_forces_watch_list_does_not (c : instanceDeployments) (opts : ListOptions) :
    Sends c.client (c.Watch opts) (fun r => ∃ o : ListOptions,
      r.params = [Params.listOptions o] ∧ o.Watch = true ∧
      o.LabelSelector = opts.LabelSelector ∧ o.FieldSelector = opts.FieldSelector ∧
      o.IncludeUninitialized = opts.IncludeUninitialized ∧
      o.ResourceVersion = opts.ResourceVersion ∧
      o.TimeoutSeconds = opts.TimeoutSeconds) ∧
    c.Watch { opts with Watch := false } = c.Watch { opts with Watch := true } ∧
    c.Watch opts = c.Watch { opts with Watch := true } ∧
    Sends c.client (c.List opts) (fun r => r.params = [Params.listOptions opts]) ∧
    Sends c.client (c.List { opts with Watch := false }) (fun r => ∃ o : ListOptions,
      r.params = [Params.listOptions o] ∧ o.Watch = false) :=
  ⟨⟨_, rfl, _, rfl, rfl, rfl, rfl, rfl, rfl, rfl⟩, rfl, rfl, ⟨_, rfl, rfl⟩,
    ⟨_, rfl, _, rfl, rfl⟩⟩

/-! ## C4: object and collection addressing, options -/

/-- C4: `Get` and `Delete` address the object named by their `name` argument
and no sub-resource; `List`, `Watch`, `Create` and `DeleteCollection` set no
object name (and no sub-resource).  `Get` sends its `GetOptions`, and `List`
and `DeleteCollection` their `ListOptions`, unchanged as the versioned query
parameters.  `Delete` and `DeleteCollection` send the `DeleteOptions` pointer
as the body, and `Delete` sends no query parameters. -/
theorem C4_addressing_and_options (c : instanceDeployments) :
    (∀ name options, Sends c.client (c.Get name options) (fun r =>
      r.names = [name] ∧ r.subresourcePath = [] ∧
      r.params = [Params.getOptions options] ∧ r.bodies = [])) ∧
    (∀ name options, Sends c.client (c.Delete name options) (fun r =>
      r.names = [name] ∧ r.subresourcePath = [] ∧
      r.bodies = [Body.deleteOptions options] ∧ r.params = [])) ∧
    (∀ opts, Sends c.client (c.List opts) (fun r =>
      r.names = [] ∧ r.subresourcePath = [] ∧ r.params = [Params.listOptions opts])) ∧
    (∀ opts, Sends c.client (c.Watch opts) (fun r =>
      r.names = [] ∧ r.subresourcePath = [])) ∧
    (∀ d, Sends c.client (c.Create d) (fun r =>
      r.names = [] ∧ r.subresourcePath = [])) ∧
    (∀ options listOptions, Sends c.client (c.DeleteCollection options listOptions) (fun r =>
      r.names = [] ∧ r.subresourcePath = [] ∧
      r.params = [Params.listOptions listOptions] ∧
      r.bodies = [Body.deleteOptions options])) := by
  refine ⟨?_, ?_, ?_, ?_, ?_, ?_⟩ <;> intros <;>
    first
      | exact ⟨_, rfl, rfl, rfl, rfl, rfl⟩
      | exact ⟨_, rfl, rfl, rfl, rfl⟩
      | exact ⟨_, rfl, rfl, rfl⟩

/-! ## C5: `Update` and `UpdateStatus` -/

/-- C5: for every non-nil `InstanceDeployment` `d`, `Update` and
`UpdateStatus` both address the object named `d.Name` and send `d` as the
body; `Update` targets no sub-resource, `UpdateStatus` the sub-resource
"status", and leaving the sub-resource out of the request of `UpdateStatus`
gives the request of `Update`. -/
theorem C5_update_and_update_status (c : instanceDeployments) (d : InstanceDeployment) :
    SendBoth c.client (c.Update (some d)) (c.UpdateStatus (some d)) (fun r₁ r₂ =>
      r₁.names = [d.Name] ∧ r₂.names = [d.Name] ∧
      r₁.bodies = [Body.instanceDeployment (some d)] ∧
      r₂.bodies = [Body.instanceDeployment (some d)] ∧
      r₁.subresourcePath = [] ∧ r₂.subresourcePath = ["status"] ∧
      r₂.withoutSubResource = r₁ ∧ r₁.withoutSubResource = r₁) :=
  ⟨_, _, rfl, rfl, rfl, rfl, rfl, rfl, rfl, rfl, rfl, rfl⟩

/-! ## C6: the scale sub-resource -/

/-- The call returned an object of kind `k`: the pointer it returns is
non-nil and refers to what the transport left, by `Do().Into`, in the fresh
object `zero` it was given for the one request `r` the call executed; the
error returned is the one `Into` gave. -/
def ReturnsDecoded (before : Interface) (k : Kind) (zero : k.type)
    (run : Run (Option k.type)) : Prop :=
  ∃ r : Request, run.client.sent = before.sent ++ [r] ∧
    run.outcome = Outcome.returned (some ((before.Do r).Into k zero).1)
      ((before.Do r).Into k zero).2

/-- C6: `GetScale n options` builds the request of `Get n options` with the
sub-resource "scale" added, and decodes the answer into a `Scale`.
`UpdateScale n scale` executes a PUT on the sub-resource "scale" of the object
named `n`, with `scale` as the body; the name is `n` whatever name the `Scale`
carries, and two calls with different `Scale`s differ in the body only. -/
theorem C6_scale_subresource (c : instanceDeployments) (n : String) :
    (∀ options, SendBoth c.client (c.Get n options) (c.GetScale n options) (fun r₁ r₂ =>
      r₂.withoutSubResource = r₁ ∧ r₁.subresourcePath = [] ∧
      r₂.subresourcePath = ["scale"] ∧ r₂.names = [n])) ∧
    (∀ options, ReturnsDecoded c.client Kind.scale {} (c.GetScale n options)) ∧
    (∀ scale, Sends c.client (c.UpdateScale n scale) (fun r =>
      r.verb = Verb.PUT ∧ r.resources = ["instancedeployments"] ∧ r.names = [n] ∧
      r.subresourcePath = ["scale"] ∧ r.bodies = [Body.scale scale] ∧ r.params = [])) ∧
    (∀ scale scale2, SendBoth c.client (c.UpdateScale n scale) (c.UpdateScale n scale2)
      (fun r₁ r₂ => r₁.withoutBody = r₂.withoutBody)) ∧
    (∀ s : Scale, Sends c.client (c.UpdateScale n (some { s with Name := "other" }))
      (fun r => r.names = [n])) := by
  refine ⟨?_, ?_, ?_, ?_, ?_⟩ <;> intros
  · exact ⟨_, _, rfl, rfl, rfl, rfl, rfl, rfl⟩
  · exact ⟨_, rfl, rfl⟩
  · exact ⟨_, rfl, rfl, rfl, rfl, rfl, rfl, rfl⟩
  · exact ⟨_, _, rfl, rfl, rfl⟩
  · exact ⟨_, rfl, rfl⟩

/-! ## C7: `Patch` -/

/-- C7: `Patch` executes a PATCH of the given patch type on the object with
the given name, with `data` as the body, with the given sub-resources in the
given order as the sub-resource path, and with no query parameters; with no
sub-resources the path is empty, so the object itself is the target. -/
theorem C7_patch (c : instanceDeployments) (name : String) (pt : PatchType)
    (data : ByteSlice) (subresources : StringSlice) :
    Sends c.client (c.Patch name pt data subresources) (fun r =>
      r.verb = Verb.PATCH pt ∧ r.resources = ["instancedeployments"] ∧
      r.names = [name] ∧ r.bodies = [Body.bytes data] ∧
      r.subresourcePath = subresources ∧ r.params = []) ∧
    Sends c.client (c.Patch name pt data []) (fun r =>
      r.names = [name] ∧ r.subresourcePath = []) := by
  refine ⟨⟨_, rfl, rfl, rfl, rfl, rfl, ?_, rfl⟩, ⟨_, rfl, rfl, rfl⟩⟩
  simp [Request.subresourcePath, Request.Body, Request.Name, Request.SubResource,
    Request.Resource, Interface.Patch]

/-! ## C8: payloads are handed over as they are -/

/-- C8, as stated, fails in two places.  Given a nil `InstanceDeployment`,
`Update` panics and hands nothing to the transport.  And `Update` does look
into its payload: two objects that differ in `Name` give requests that differ
outside the body. -/
theorem C8_update_inspects_its_payload :
    (instanceDeployments.Update { client := quietTransport } none).outcome =
      Outcome.panicked Panic.nilPointerDereference ∧
    ¬ Sends quietTransport (instanceDeployments.Update { client := quietTransport } none)
        (fun r => r.bodies = [Body.instanceDeployment none]) ∧
    ¬ SendBoth quietTransport
        (instanceDeployments.Update { client := quietTransport } (some { Name := "a" }))
        (instanceDeployments.Update { client := quietTransport } (some { Name := "b" }))
        (fun r₁ r₂ => r₁.withoutBody = r₂.withoutBody) := by
  refine ⟨rfl, ?_, ?_⟩
  · rintro ⟨r, h, -⟩
    simp [instanceDeployments.Update, quietTransport] at h
  · rintro ⟨r₁, r₂, h₁, h₂, h⟩
    simp [instanceDeployments.Update, quietTransport, Interface.exec] at h₁ h₂
    subst h₁ h₂
    revert h
    decide

/-- C8, amended: nothing in this file validates or alters the payload an
operation is given, and the only thing read from one is `Name`, by `Update`
and `UpdateStatus`, to address the object.  For every argument of `Create` and
`UpdateScale` (nil included) and every non-nil argument of `Update` and
`UpdateStatus`, the operation passes the caller's object, every field
unchanged, to the request builder as the body and calls `Do()` on the
request, an empty name or an empty object included, and it returns what the
transport answers.  Outside the body the request does not depend on the
payload for `Create` and `UpdateScale`, and depends only on its `Name` for
`Update` and `UpdateStatus`.  Whether the request is then accepted is the
transport's decision, request builder included: on a transport that refuses
an empty name, as the builder of client-go does, `Update`, `UpdateStatus` and
`UpdateScale` return that refusal as their error, with the zero-valued
result, while a named object and `Create` of an empty object go through. -/
theorem C8_payload_handed_over (c : instanceDeployments) :
    (∀ d, Sends c.client (c.Create d) (fun r => r.bodies = [Body.instanceDeployment d]) ∧
      ReturnsDecoded c.client Kind.instanceDeployment {} (c.Create d)) ∧
    (∀ d : InstanceDeployment,
      Sends c.client (c.Update (some d)) (fun r =>
        r.bodies = [Body.instanceDeployment (some d)] ∧ r.names = [d.Name]) ∧
      ReturnsDecoded c.client Kind.instanceDeployment {} (c.Update (some d))) ∧
    (∀ d : InstanceDeployment,
      Sends c.client (c.UpdateStatus (some d)) (fun r =>
        r.bodies = [Body.instanceDeployment (some d)] ∧ r.names = [d.Name]) ∧
      ReturnsDecoded c.client Kind.instanceDeployment {} (c.UpdateStatus (some d))) ∧
    (∀ n scale, Sends c.client (c.UpdateScale n scale) (fun r => r.bodies = [Body.scale scale]) ∧
      ReturnsDecoded c.client Kind.scale {} (c.UpdateScale n scale)) ∧
    (∀ d d2, SendBoth c.client (c.Create d) (c.Create d2)
      (fun r₁ r₂ => r₁.withoutBody = r₂.withoutBody)) ∧
    (∀ n scale scale2, SendBoth c.client (c.UpdateScale n scale) (c.UpdateScale n scale2)
      (fun r₁ r₂ => r₁.withoutBody = r₂.withoutBody)) ∧
    (∀ d : InstanceDeployment,
      SendBoth c.client (c.Update (some d)) (c.Update (some { Name := d.Name }))
        (fun r₁ r₂ => r₁.withoutBody = r₂.withoutBody)) ∧
    (∀ d : InstanceDeployment,
      SendBoth c.client (c.UpdateStatus (some d)) (c.UpdateStatus (some { Name := d.Name }))
        (fun r₁ r₂ => r₁.withoutBody = r₂.withoutBody)) ∧
    (Sends c.client (c.Create (some {})) (fun r =>
        r.bodies = [Body.instanceDeployment (some {})]) ∧
      Sends c.client (c.Update (some {})) (fun r =>
        r.names = [""] ∧ r.bodies = [Body.instanceDeployment (some {})]) ∧
      Sends c.client (c.UpdateStatus (some {})) (fun r =>
        r.names = [""] ∧ r.bodies = [Body.instanceDeployment (some {})]) ∧
      Sends c.client (c.UpdateScale "" (some {})) (fun r =>
        r.names = [""] ∧ r.bodies = [Body.scale (some {})])) ∧
    ((instanceDeployments.Update { client := emptyNameRefusingTransport } (some {})).outcome =
        Outcome.returned (some {}) (some { msg := "resource name may not be empty" }) ∧
      (instanceDeployments.UpdateStatus { client := emptyNameRefusingTransport }
          (some {})).outcome =
        Outcome.returned (some {}) (some { msg := "resource name may not be empty" }) ∧
      (instanceDeployments.UpdateScale { client := emptyNameRefusingTransport } ""
          (some {})).outcome =
        Outcome.returned (some {}) (some { msg := "resource name may not be empty" }) ∧
      (instanceDeployments.Update { client := emptyNameRefusingTransport }
          (some { Name := "web" })).outcome = Outcome.returned (some {}) none ∧
      (instanceDeployments.Create { client := emptyNameRefusingTransport }
          (some {})).outcome = Outcome.returned (some {}) none) := by
  refine ⟨?_, ?_, ?_, ?_, ?_, ?_, ?_, ?_,
    ⟨⟨_, rfl, rfl⟩, ⟨_, rfl, rfl, rfl⟩, ⟨_, rfl, rfl, rfl⟩, ⟨_, rfl, rfl, rfl⟩⟩,
    ⟨rfl, rfl, rfl, rfl, rfl⟩⟩ <;> intros
  · exact ⟨⟨_, rfl, rfl⟩, ⟨_, rfl, rfl⟩⟩
  · exact ⟨⟨_, rfl, rfl, rfl⟩, ⟨_, rfl, rfl⟩⟩
  · exact ⟨⟨_, rfl, rfl, rfl⟩, ⟨_, rfl, rfl⟩⟩
  · exact ⟨⟨_, rfl, rfl⟩, ⟨_, rfl, rfl⟩⟩
  · exact ⟨_, _, rfl, rfl, rfl⟩
  · exact ⟨_, _, rfl, rfl, rfl⟩
  · exact ⟨_, _, rfl, rfl, rfl⟩
  · exact ⟨_, _, rfl, rfl, rfl⟩

/-! ## C9: nil arguments -/

/-- C9: `Update` and `UpdateStatus` read `Name` through their argument before
anything is executed.  For a non-nil argument they do not panic: they execute
one PUT, addressed by the name read, and return what the transport answers.
For a nil argument they panic and leave the transport as it was, with no
request executed.  `Create` and `UpdateScale` read nothing through their
argument: for every argument, nil included, they execute one request, with the
argument as the body, and return what the transport answers; outside the body
the request is the same for every argument. -/
theorem C9_nil_arguments (c : instanceDeployments) (d : Option InstanceDeployment)
    (h : d ≠ none) :
    (ReturnsDecoded c.client Kind.instanceDeployment {} (c.Update d) ∧
      IssuesOne c.client (c.Update d) Verb.PUT ∧
      Sends c.client (c.Update d) (fun r =>
        r.names = (d.map InstanceDeployment.Name).toList)) ∧
    (ReturnsDecoded c.client Kind.instanceDeployment {} (c.UpdateStatus d) ∧
      IssuesOne c.client (c.UpdateStatus d) Verb.PUT ∧
      Sends c.client (c.UpdateStatus d) (fun r =>
        r.names = (d.map InstanceDeployment.Name).toList)) ∧
    ((c.Update none).outcome = Outcome.panicked Panic.nilPointerDereference ∧
      (c.Update none).client = c.client) ∧
    ((c.UpdateStatus none).outcome = Outcome.panicked Panic.nilPointerDereference ∧
      (c.UpdateStatus none).client = c.client) ∧
    (∀ a, ReturnsDecoded c.client Kind.instanceDeployment {} (c.Create a) ∧
      Sends c.client (c.Create a) (fun r => r.bodies = [Body.instanceDeployment a])) ∧
    (∀ n a, ReturnsDecoded c.client Kind.scale {} (c.UpdateScale n a) ∧
      Sends c.client (c.UpdateScale n a) (fun r => r.bodies = [Body.scale a])) ∧
    (∀ a a2, SendBoth c.client (c.Create a) (c.Create a2)
      (fun r₁ r₂ => r₁.withoutBody = r₂.withoutBody)) ∧
    (∀ n a a2, SendBoth c.client (c.UpdateScale n a) (c.UpdateScale n a2)
      (fun r₁ r₂ => r₁.withoutBody = r₂.withoutBody)) := by
  obtain ⟨x, rfl⟩ := Option.ne_none_iff_exists'.mp h
  exact ⟨⟨⟨_, rfl, rfl⟩, ⟨_, rfl, rfl, rfl, rfl⟩, ⟨_, rfl, rfl⟩⟩,
    ⟨⟨_, rfl, rfl⟩, ⟨_, rfl, rfl, rfl, rfl⟩, ⟨_, rfl, rfl⟩⟩,
    ⟨rfl, rfl⟩, ⟨rfl, rfl⟩,
    fun _ => ⟨⟨_, rfl, rfl⟩, ⟨_, rfl, rfl⟩⟩, fun _ _ => ⟨⟨_, rfl, rfl⟩, ⟨_, rfl, rfl⟩⟩,
    fun _ _ => ⟨_, _, rfl, rfl, rfl⟩, fun _ _ _ => ⟨_, _, rfl, rfl, rfl⟩⟩

/-- C9 at a concrete input: a non-nil object named "web" on the quiet
transport is sent; the same client panics on nil and leaves the transport
alone. -/
theorem C9_nil_arguments_witness :
    (some { Name := "web" } : Option InstanceDeployment) ≠ none ∧
    IssuesOne quietTransport
      (instanceDeployments.Update { client := quietTransport } (some { Name := "web" }))
      Verb.PUT ∧
    (instanceDeployments.Update { client := quietTransport } none).outcome =
      Outcome.panicked Panic.nilPointerDereference :=
  ⟨by decide,
    (C9_nil_arguments { client := quietTransport } (some { Name := "web" }) (by decide)).1.2.1,
    (C9_nil_arguments { client := quietTransport } (some { Name := "web" })
      (by decide)).2.2.1.1⟩

/-! ## C10: a result is returned also with an error -/

/-- C10: each of `Get`, `List`, `Create`, `Update`, `UpdateStatus`, `Patch`,
`GetScale` and `UpdateScale`, when it returns, returns a non-nil pointer,
whatever error comes with it: the pointer refers to the fresh zero-valued
object that was handed to the transport to decode into, as the transport left
it.  So on a transport that fails with `e` without decoding anything, each of
them returns the zero-valued object together with `e`. -/
theorem C10_result_never_nil (c : instanceDeployments) :
    ((∀ name options, ReturnsDecoded c.client Kind.instanceDeployment {} (c.Get name options)) ∧
      (∀ opts, ReturnsDecoded c.client Kind.instanceDeploymentList {} (c.List opts)) ∧
      (∀ d, ReturnsDecoded c.client Kind.instanceDeployment {} (c.Create d)) ∧
      (∀ d : InstanceDeployment,
        ReturnsDecoded c.client Kind.instanceDeployment {} (c.Update (some d))) ∧
      (∀ d : InstanceDeployment,
        ReturnsDecoded c.client Kind.instanceDeployment {} (c.UpdateStatus (some d))) ∧
      (∀ name pt data subresources,
        ReturnsDecoded c.client Kind.instanceDeployment {} (c.Patch name pt data subresources)) ∧
      (∀ name options, ReturnsDecoded c.client Kind.scale {} (c.GetScale name options)) ∧
      (∀ name scale, ReturnsDecoded c.client Kind.scale {} (c.UpdateScale name scale))) ∧
    (∀ e : Error, (∀ r k obj, (c.client.Do r).Into k obj = (obj, some e)) →
      (∀ name options, (c.Get name options).outcome = Outcome.returned (some {}) (some e)) ∧
      (∀ opts, (c.List opts).outcome = Outcome.returned (some {}) (some e)) ∧
      (∀ d, (c.Create d).outcome = Outcome.returned (some {}) (some e)) ∧
      (∀ d : InstanceDeployment,
        (c.Update (some d)).outcome = Outcome.returned (some {}) (some e)) ∧
      (∀ d : InstanceDeployment,
        (c.UpdateStatus (some d)).outcome = Outcome.returned (some {}) (some e)) ∧
      (∀ name pt data subresources,
        (c.Patch name pt data subresources).outcome = Outcome.returned (some {}) (some e)) ∧
      (∀ name options, (c.GetScale name options).outcome = Outcome.returned (some {}) (some e)) ∧
      (∀ name scale,
        (c.UpdateScale name scale).outcome = Outcome.returned (some {}) (some e))) := by
  refine ⟨⟨?_, ?_, ?_, ?_, ?_, ?_, ?_, ?_⟩, ?_⟩
  iterate 8 (intros; exact ⟨_, rfl, rfl⟩)
  intro e h
  refine ⟨?_, ?_, ?_, ?_, ?_, ?_, ?_, ?_⟩ <;> intros <;>
    simp [instanceDeployments.Get, instanceDeployments.List, instanceDeployments.Create,
      instanceDeployments.Update, instanceDeployments.UpdateStatus, instanceDeployments.Patch,
      instanceDeployments.GetScale, instanceDeployments.UpdateScale, Interface.exec, h]

/-- C10 at a concrete input: on the failing transport `Get` and `GetScale`
return the zero-valued object together with the transport error. -/
theorem C10_result_never_nil_witness :
    (instanceDeployments.Get { client := failingTransport } "web" {}).outcome =
      Outcome.returned (some {}) (some { msg := "connection refused" }) ∧
    (instanceDeployments.GetScale { client := failingTransport } "web" {}).outcome =
      Outcome.returned (some {}) (some { msg := "connection refused" }) :=
  ⟨((C10_result_never_nil { client := failingTransport }).2 { msg := "connection refused" }
      (fun _ _ _ => rfl)).1 "web" {},
    ((C10_result_never_nil { client := failingTransport }).2 { msg := "connection refused" }
      (fun _ _ _ => rfl)).2.2.2.2.2.2.1 "web" {}⟩

end v1alpha1
